import Mathlib

/-!
Shallow embedding of the supervision-helper application core: the retry
wrapper and response processing of `src/services/geminiService.ts`, and the
pipeline state handlers of the main application component.

Asynchronous service calls are modelled by passing each handler the outcome
of the call it awaits (`Except JsError _`); React `useState` setters are
modelled as functional record updates applied in program order.
-/

set_option maxRecDepth 8192

/- ===== JavaScript string primitives used by the source ===== -/

/-- Whitespace as recognised by `String.prototype.trim` (the code points the
source can realistically receive). -/
def jsWhitespaceChar (c : Char) : Bool :=
  c = ' ' || c = '\t' || c = '\n' || c = '\r' || c = '\x0b' || c = '\x0c' ||
  c = Char.ofNat 0xa0 || c = Char.ofNat 0x2028 || c = Char.ofNat 0x2029 || c = Char.ofNat 0xfeff

/-- Drop leading JS whitespace from a character list. -/
def dropWsLead : List Char → List Char
  | [] => []
  | c :: cs => if jsWhitespaceChar c then dropWsLead cs else c :: cs

/-- Model of `String.prototype.trim`: drop leading and trailing whitespace. -/
def jsTrim (s : String) : String :=
  String.mk (dropWsLead (dropWsLead s.data.reverse).reverse)

/-- Does `needle` match at the head of `hay`? (helper for `includes`). -/
def leadMatch : List Char → List Char → Bool
  | [], _ => true
  | _ :: _, [] => false
  | n :: ns, h :: hs => n = h && leadMatch ns hs

/-- Does `hay` contain `needle` as a contiguous run? (helper for `includes`). -/
def hasSub : List Char → List Char → Bool
  | [], needle => needle.isEmpty
  | h :: t, needle => leadMatch needle (h :: t) || hasSub t needle

/-- Model of `String.prototype.includes`. -/
def strIncludes (s sub : String) : Bool :=
  hasSub s.data sub.data

/-- JS `a || b` on a possibly-undefined string (`undefined` and `""` are falsy). -/
def jsOrStr (a : Option String) (b : String) : String :=
  match a with
  | none => b
  | some s => if s = "" then b else s

/-- JS truthiness of a possibly-undefined string. -/
def jsTruthyOptStr (a : Option String) : Bool :=
  match a with
  | none => false
  | some s => !(s = "")

/-- Template-literal coercion of a possibly-undefined string. -/
def jsStrOrUndefined (a : Option String) : String :=
  match a with
  | none => "undefined"
  | some s => s

/- ===== Model of `JSON.parse` ===== -/

/-- JSON values as produced by `JSON.parse`. -/
inductive Json where
  | null
  | bool (b : Bool)
  | num (q : ℚ)
  | str (s : String)
  | arr (elems : List Json)
  | obj (members : List (String × Json))

/-- Is a JSON value the null literal? -/
def Json.isNullB : Json → Bool
  | Json.null => true
  | _ => false

/-- The character `U+007B` (left curly bracket). -/
def lcurly : Char := Char.ofNat 123

/-- The character `U+007D` (right curly bracket). -/
def rcurly : Char := Char.ofNat 125

/-- JSON insignificant whitespace. -/
def skipWs : List Char → List Char
  | [] => []
  | c :: cs => if c = ' ' || c = '\t' || c = '\n' || c = '\r' then skipWs cs else c :: cs

/-- Value of one hexadecimal digit (code-point arithmetic: digits, then the
lowercase and uppercase letter ranges). -/
def hexDigitVal (c : Char) : Option Nat :=
  let n := c.toNat
  if 48 ≤ n && n ≤ 57 then some (n - 48)
  else if 97 ≤ n && n ≤ 102 then some (n - 87)
  else if 65 ≤ n && n ≤ 70 then some (n - 55)
  else none

/-- Parse the body of a JSON string after the opening quote; `acc` holds the
characters read so far, reversed. -/
def parseStrBody : List Char → List Char → Option (String × List Char)
  | _, [] => none
  | acc, c :: cs =>
    if c = '"' then some (String.mk acc.reverse, cs)
    else if c = '\\' then
      match cs with
      | [] => none
      | e :: cs2 =>
        if e = '"' then parseStrBody ('"' :: acc) cs2
        else if e = '\\' then parseStrBody ('\\' :: acc) cs2
        else if e = '/' then parseStrBody ('/' :: acc) cs2
        else if e = 'b' then parseStrBody ('\x08' :: acc) cs2
        else if e = 'f' then parseStrBody ('\x0c' :: acc) cs2
        else if e = 'n' then parseStrBody ('\n' :: acc) cs2
        else if e = 'r' then parseStrBody ('\r' :: acc) cs2
        else if e = 't' then parseStrBody ('\t' :: acc) cs2
        else if e = 'u' then
          match cs2 with
          | h1 :: h2 :: h3 :: h4 :: cs3 =>
            match hexDigitVal h1, hexDigitVal h2, hexDigitVal h3, hexDigitVal h4 with
            | some a, some b, some c2, some d =>
              parseStrBody (Char.ofNat (((a * 16 + b) * 16 + c2) * 16 + d) :: acc) cs3
            | _, _, _, _ => none
          | _ => none
        else none
    else if c.toNat < 32 then none
    else parseStrBody (c :: acc) cs

/-- Split leading decimal digits. -/
def takeDigits : List Char → List Char × List Char
  | [] => ([], [])
  | c :: cs =>
    if c.isDigit then
      let p := takeDigits cs
      (c :: p.1, p.2)
    else ([], c :: cs)

/-- Value of a digit run. -/
def digitsToNat (ds : List Char) : Nat :=
  ds.foldl (fun n c => n * 10 + (c.toNat - 48)) 0

/-- Parse a JSON number (sign, integer part without leading zeros, optional
fraction, optional exponent). -/
def parseNumber (cs : List Char) : Option (Json × List Char) :=
  let signAndRest : Bool × List Char :=
    match cs with
    | c :: rest => if c = '-' then (true, rest) else (false, cs)
    | [] => (false, cs)
  let neg := signAndRest.1
  let cs1 := signAndRest.2
  match cs1 with
  | [] => none
  | c :: _ =>
    if !c.isDigit then none
    else
      let ip := takeDigits cs1
      if ip.1.length > 1 && ip.1.head? = some '0' then none
      else
        let fracAndRest : Option (ℚ × List Char) :=
          match ip.2 with
          | '.' :: cs3 =>
            let fp := takeDigits cs3
            if fp.1.isEmpty then none
            else some ((digitsToNat fp.1 : ℚ) / (10 : ℚ) ^ fp.1.length, fp.2)
          | rest => some (0, rest)
        match fracAndRest with
        | none => none
        | some (fracVal, cs4) =>
          let expAndRest : Option (ℤ × List Char) :=
            match cs4 with
            | e :: cs5 =>
              if e = 'e' || e = 'E' then
                let esignAndRest : Bool × List Char :=
                  match cs5 with
                  | s :: rest => if s = '-' then (true, rest) else if s = '+' then (false, rest) else (false, cs5)
                  | [] => (false, cs5)
                let ep := takeDigits esignAndRest.2
                if ep.1.isEmpty then none
                else some (if esignAndRest.1 then -(digitsToNat ep.1 : ℤ) else (digitsToNat ep.1 : ℤ), ep.2)
              else some (0, cs4)
            | [] => some (0, cs4)
          match expAndRest with
          | none => none
          | some (expVal, cs6) =>
            let mag : ℚ := ((digitsToNat ip.1 : ℚ) + fracVal) * (10 : ℚ) ^ expVal
            some (Json.num (if neg then -mag else mag), cs6)

mutual

/-- Parse one JSON value (fuel-indexed recursive descent). -/
def parseVal : Nat → List Char → Option (Json × List Char)
  | 0, _ => none
  | Nat.succ fuel, cs0 =>
    match skipWs cs0 with
    | [] => none
    | c :: rest =>
      if c = '"' then
        match parseStrBody [] rest with
        | some (s, r) => some (Json.str s, r)
        | none => none
      else if c = lcurly then parseObjBody fuel (skipWs rest)
      else if c = '[' then parseArrBody fuel (skipWs rest)
      else if c = 't' then
        match rest with
        | 'r' :: 'u' :: 'e' :: r => some (Json.bool true, r)
        | _ => none
      else if c = 'f' then
        match rest with
        | 'a' :: 'l' :: 's' :: 'e' :: r => some (Json.bool false, r)
        | _ => none
      else if c = 'n' then
        match rest with
        | 'u' :: 'l' :: 'l' :: r => some (Json.null, r)
        | _ => none
      else if c = '-' || c.isDigit then parseNumber (c :: rest)
      else none

/-- Parse an object body after the opening bracket (whitespace skipped). -/
def parseObjBody : Nat → List Char → Option (Json × List Char)
  | 0, _ => none
  | Nat.succ fuel, cs =>
    match cs with
    | [] => none
    | c :: rest =>
      if c = rcurly then some (Json.obj [], rest)
      else parseMembers fuel cs []

/-- Parse the members of a JSON object. -/
def parseMembers : Nat → List Char → List (String × Json) → Option (Json × List Char)
  | 0, _, _ => none
  | Nat.succ fuel, cs, acc =>
    match skipWs cs with
    | [] => none
    | c :: rest =>
      if c = '"' then
        match parseStrBody [] rest with
        | none => none
        | some (k, r1) =>
          match skipWs r1 with
          | ':' :: r2 =>
            match parseVal fuel r2 with
            | none => none
            | some (v, r3) =>
              match skipWs r3 with
              | [] => none
              | c2 :: r4 =>
                if c2 = ',' then parseMembers fuel r4 (acc ++ [(k, v)])
                else if c2 = rcurly then some (Json.obj (acc ++ [(k, v)]), r4)
                else none
          | _ => none
      else none

/-- Parse an array body after the opening bracket (whitespace skipped). -/
def parseArrBody : Nat → List Char → Option (Json × List Char)
  | 0, _ => none
  | Nat.succ fuel, cs =>
    match cs with
    | [] => none
    | c :: rest =>
      if c = ']' then some (Json.arr [], rest)
      else parseElems fuel cs []

/-- Parse the elements of a JSON array. -/
def parseElems : Nat → List Char → List Json → Option (Json × List Char)
  | 0, _, _ => none
  | Nat.succ fuel, cs, acc =>
    match parseVal fuel cs with
    | none => none
    | some (v, r1) =>
      match skipWs r1 with
      | [] => none
      | c :: r2 =>
        if c = ',' then parseElems fuel r2 (acc ++ [v])
        else if c = ']' then some (Json.arr (acc ++ [v]), r2)
        else none

end

/-- Model of `JSON.parse`: parse one value, then require only trailing
whitespace; any other input raises a `SyntaxError` (modelled as `none`). -/
def jsonParse (s : String) : Option Json :=
  match parseVal (2 * s.length + 8) s.data with
  | some (j, rest) =>
    match skipWs rest with
    | [] => some j
    | _ => none
  | none => none

/-- JS property access on a parsed JSON value: defined keys of an object
(later duplicates win, as in `JSON.parse`), `undefined` otherwise. -/
def Json.getField : Json → String → Option Json
  | Json.obj kvs, k => ((kvs.filter (fun p => p.1 = k)).getLast?).map (fun p => p.2)
  | _, _ => none

mutual

/-- JS template-literal coercion of a JSON value to a string. Number
formatting is modelled up to representation (never exercised here: the
source only interpolates strings and `undefined`). -/
def jsToDisplayString : Json → String
  | Json.null => "null"
  | Json.bool b => cond b "true" "false"
  | Json.num q => toString q
  | Json.str s => s
  | Json.obj _ => "[object Object]"
  | Json.arr xs => jsArrDisplay xs

/-- `Array.prototype.toString`: elements joined by commas, `null` rendered
as the empty string. -/
def jsArrDisplay : List Json → String
  | [] => ""
  | [Json.null] => ""
  | [x] => jsToDisplayString x
  | Json.null :: xs => "," ++ jsArrDisplay xs
  | x :: xs => jsToDisplayString x ++ "," ++ jsArrDisplay xs

end

/-- Template-literal coercion of a possibly-undefined JSON value. -/
def jsFieldStr : Option Json → String
  | none => "undefined"
  | some j => jsToDisplayString j

/- ===== geminiService.ts: the retry wrapper ===== -/

/-- A JavaScript error as inspected by `withRetry` and the UI handlers:
optional `status` and `code` fields and an optional `message`. -/
structure JsError where
  status : Option Nat
  code : Option Nat
  message : Option String
deriving DecidableEq

/-- The rate-limit classification of `withRetry`:
`error?.status === 429 || error?.code === 429 ||
 error?.message?.includes("429") || error?.message?.includes("RESOURCE_EXHAUSTED")`. -/
def isRateLimit (e : JsError) : Bool :=
  (e.status == some 429) || (e.code == some 429) ||
    (match e.message with
     | some m => strIncludes m "429" || strIncludes m "RESOURCE_EXHAUSTED"
     | none => false)

/-- Observable behaviour of one `withRetry` run: the settled value (`error
none` models throwing the initial `undefined` `lastError`, reachable only
with `maxRetries = 0`), the number of invocations of the wrapped operation,
and the backoff delays (in milliseconds) between consecutive attempts. -/
structure RetryResult (α : Type) where
  result : Except (Option JsError) α
  calls : Nat
  delays : List ℚ

/-- The loop of `withRetry`: `fn i` is the outcome of attempt `i` (0-indexed)
and `jitter i` models the `Math.random() * 1000` summand of its backoff
delay. `fuel` is the number of loop iterations left (`maxRetries - i`). -/
def withRetryGo {α : Type} (fn : Nat → Except JsError α) (jitter : Nat → ℚ)
    (maxRetries : Nat) : Nat → Nat → Option JsError → RetryResult α
  | 0, _, lastError => ⟨Except.error lastError, 0, []⟩
  | Nat.succ fuel, i, _ =>
    match fn i with
    | Except.ok a => ⟨Except.ok a, 1, []⟩
    | Except.error e =>
      if isRateLimit e ∧ i < maxRetries - 1 then
        let rest := withRetryGo fn jitter maxRetries fuel (i + 1) (some e)
        ⟨rest.result, rest.calls + 1, ((2 : ℚ) ^ i * 2000 + jitter i) :: rest.delays⟩
      else ⟨Except.error (some e), 1, []⟩

/-- Model of `withRetry(fn, maxRetries)` from `geminiService.ts`. -/
def withRetry {α : Type} (fn : Nat → Except JsError α) (jitter : Nat → ℚ)
    (maxRetries : Nat) : RetryResult α :=
  withRetryGo fn jitter maxRetries maxRetries 0 none

/- ===== geminiService.ts: generateFeedbackSummary ===== -/

/-- The `FeedbackData` object built by `generateFeedbackSummary` at runtime:
the four schema fields come from the parsed JSON payload and may be absent
(`undefined`), and `fullText` is a string except after the feedback
refinement handler stores a possibly-undefined response text into it. -/
structure FeedbackData where
  feedbackCard : Option Json
  healingSentence : Option Json
  theme : Option Json
  designConfig : Option Json
  fullText : Option String

/-- The `SyntaxError` raised by `JSON.parse` on malformed input. -/
def jsonParseErr : JsError :=
  ⟨none, none, some "Unexpected token in JSON"⟩

/-- Result processing of `generateFeedbackSummary`, given the provider
response text (`response.text`, possibly undefined):
`const data = JSON.parse(response.text || "{}");
 return { ...data, fullText: feedbackCard-newline-newline-healingSentence }`. -/
def generateFeedbackSummary (respText : Option String) : Except JsError FeedbackData :=
  match jsonParse (jsOrStr respText "\x7b\x7d") with
  | none => Except.error jsonParseErr
  | some data =>
    let fc := data.getField "feedbackCard"
    let hs := data.getField "healingSentence"
    Except.ok
      { feedbackCard := fc
        healingSentence := hs
        theme := data.getField "theme"
        designConfig := data.getField "designConfig"
        fullText := some (jsFieldStr fc ++ "\n\n" ++ jsFieldStr hs) }

/- ===== geminiService.ts: IMAGE_STYLES and generateCardImage ===== -/

/-- `IMAGE_STYLES.auto`. -/
def styleAuto : String :=
  "A unique, artistic illustration. Style: Modern, healing. SCENE: A vast landscape with rolling hills, a distant mountain range, or an abstract tapestry of weaving light. STICK TO LANDSCAPES OR ABSTRACT ART. STRICTLY FORBIDDEN: SPROUTS, SEEDLINGS, LEAVES, GREEN PLANTS, ANY GROWTH METAPHORS. ABSOLUTELY NO TEXT."

/-- `IMAGE_STYLES.cute_animal`. -/
def styleCuteAnimal : String :=
  "A cute and warm illustration. SCENE: A busy forest festival with many different animals (rabbits, cats, dogs, bears) playing musical instruments or sharing a feast. RICH BACKGROUND with many details. NO PLANTS IN FOCUS. STRICTLY FORBIDDEN: SPROUTS, SEEDLINGS, LEAVES. ABSOLUTELY NO TEXT."

/-- `IMAGE_STYLES.warm_book`. -/
def styleWarmBook : String :=
  "A warm, healing illustration, picture book style. SCENE: A wide-angle view of a cozy village at night with glowing windows, or a library with floating books and warm candlelight. FOCUS ON ATMOSPHERE. STRICTLY FORBIDDEN: SPROUTS, SEEDLINGS, LEAVES. ABSOLUTELY NO TEXT."

/-- `IMAGE_STYLES.nature_organic`. -/
def styleNatureOrganic : String :=
  "Style: Soft painterly edges, ink wash. SCENE: A grand waterfall cascading into a misty lake, or a wide rocky canyon with glowing minerals. FOCUS ON GEOLOGICAL VASTNESS. STRICTLY FORBIDDEN: SPROUTS, SEEDLINGS, GREEN LEAVES. ABSOLUTELY NO TEXT."

/-- `IMAGE_STYLES.frieren_fantasy`. -/
def styleFrierenFantasy : String :=
  "A beautiful elf female mage, Sousou no Frieren style. SCENE: She is standing on a high stone balcony overlooking a massive stone castle and a sunset sea. FOCUS ON ARCHITECTURE AND SCALE. STRICTLY FORBIDDEN: SPROUTS, SEEDLINGS, LEAVES. ABSOLUTELY NO TEXT."

/-- `IMAGE_STYLES.professional_calm`. -/
def styleProfessionalCalm : String :=
  "Professional, minimalist illustration. Modern editorial style. SCENE: An abstract composition of many overlapping translucent geometric shapes, or a complex network of delicate golden threads. FOCUS ON BALANCE. STRICTLY FORBIDDEN: SPROUTS, SEEDLINGS, LEAVES. ABSOLUTELY NO TEXT."

/-- `IMAGE_STYLES.starry_dream`. -/
def styleStarryDream : String :=
  "A dreamlike illustration of a vast galaxy. SCENE: Thousands of stars, swirling nebulae, and distant planets. A cosmic journey. STRICTLY FORBIDDEN: ANY TERRESTRIAL PLANTS, SPROUTS, SEEDLINGS. ABSOLUTELY NO TEXT."

/-- `IMAGE_STYLES.oil_texture`. -/
def styleOilTexture : String :=
  "A rich, textured oil painting. SCENE: A classic landscape of a winding river through a rocky valley, or a stormy sea with crashing waves. FOCUS ON TEXTURE. STRICTLY FORBIDDEN: SPROUTS, SEEDLINGS, LEAVES. ABSOLUTELY NO TEXT."

/-- `IMAGE_STYLES.minimalist_line`. -/
def styleMinimalistLine : String :=
  "Minimalist line art on textured cream background. SCENE: A complex, continuous line drawing of a mountain range or a series of interconnected geometric patterns. STRICTLY FORBIDDEN: SPROUTS, SEEDLINGS, LEAVES. ABSOLUTELY NO TEXT."

/-- `IMAGE_STYLES.ghibli_fresh`. -/
def styleGhibliFresh : String :=
  "Studio Ghibli style. SCENE: A vast, lush valley with a train track running through it, or a high-altitude view of a seaside town with many houses, ships, and a bustling harbor. RICH IN ARCHITECTURAL DETAIL. STRICTLY FORBIDDEN: SPROUTS, SEEDLINGS, LEAVES. ABSOLUTELY NO TEXT."

/-- The fixed `IMAGE_STYLES` table of `geminiService.ts`. -/
def IMAGE_STYLES : List (String × String) :=
  [("auto", styleAuto),
   ("cute_animal", styleCuteAnimal),
   ("warm_book", styleWarmBook),
   ("nature_organic", styleNatureOrganic),
   ("frieren_fantasy", styleFrierenFantasy),
   ("professional_calm", styleProfessionalCalm),
   ("starry_dream", styleStarryDream),
   ("oil_texture", styleOilTexture),
   ("minimalist_line", styleMinimalistLine),
   ("ghibli_fresh", styleGhibliFresh)]

/-- Property access `IMAGE_STYLES[styleKey]` (undefined for unknown keys). -/
def lookupStyle (styleKey : String) : Option String :=
  IMAGE_STYLES.lookup styleKey

/-- The universal negative constraint appended to every image prompt. -/
def noTextSuffix : String :=
  ". ABSOLUTELY NO TEXT, NO LETTERS, NO CHARACTERS, NO WORDS IN THE IMAGE."

/-- The `finalPrompt` computation of `generateCardImage(theme, styleKey,
rawPrompt)`: a truthy `rawPrompt` is used verbatim; otherwise
`IMAGE_STYLES[styleKey] || IMAGE_STYLES.warm_book` is combined with the
theme, with a dedicated phrasing for the `auto` style. -/
def generateCardImagePrompt (theme styleKey : String) (rawPrompt : Option String) : String :=
  if jsTruthyOptStr rawPrompt then
    jsStrOrUndefined rawPrompt ++ noTextSuffix
  else
    let stylePrompt := jsOrStr (lookupStyle styleKey) styleWarmBook
    if styleKey = "auto" then
      stylePrompt ++ " The theme is: " ++ theme ++ ". Create a visual metaphor for this theme" ++ noTextSuffix
    else
      stylePrompt ++ " Theme: " ++ theme ++ noTextSuffix

/- ===== App component: pipeline state and handlers ===== -/

/-- The wizard stage (`type Step` in the app component). -/
inductive Step where
  | initial
  | record
  | feedback
  | visual
deriving DecidableEq

/-- The `useState` cells of the app component that the pipeline handlers can
read or write. Initial values follow the `useState` initialisers. -/
structure AppState where
  input : String
  isGenerating : Bool
  formalRecord : String
  feedback : Option FeedbackData
  cardImage : Option String
  imagePrompt : Option String
  step : Step
  selectedStyle : String
  error : Option String
  hasKey : Bool
  isEditing : Bool
  refinementInput : String
  isRefining : Bool
  imageRefinementInput : String
  isRefiningImage : Bool

/-- The initial component state. -/
def initialState : AppState :=
  { input := "", isGenerating := false, formalRecord := "", feedback := none,
    cardImage := none, imagePrompt := none, step := Step.initial,
    selectedStyle := "auto", error := none, hasKey := true, isEditing := false,
    refinementInput := "", isRefining := false, imageRefinementInput := "",
    isRefiningImage := false }

/-- Does `err?.message` include the given substring? -/
def errMsgIncludes (e : JsError) (sub : String) : Bool :=
  match e.message with
  | some m => strIncludes m sub
  | none => false

/-- `handleGenerateRecord`, given the outcome of the awaited
`generateFormalRecord` call. Returns the final state and whether the
generation client was invoked; with blank input the handler returns before
doing anything. -/
def handleGenerateRecord (s : AppState) (res : Except JsError (Option String)) :
    AppState × Bool :=
  if jsTrim s.input = "" then (s, false)
  else
    match res with
    | Except.ok record =>
      ({ s with isGenerating := false, error := none,
                formalRecord := jsOrStr record "", step := Step.record }, true)
    | Except.error err =>
      if errMsgIncludes err "Requested entity was not found" then
        ({ s with isGenerating := false, hasKey := false,
                  error := some "API Key 效期已過或未設定，請重新連接。" }, true)
      else if errMsgIncludes err "RESOURCE_EXHAUSTED" then
        ({ s with isGenerating := false,
                  error := some "API 使用額度已達上限，請稍後再試，或檢查您的 API Key 設定。" }, true)
      else
        ({ s with isGenerating := false,
                  error := some "生成紀錄時發生錯誤，請稍後再試。" }, true)

/-- `handleRefine`, given the outcome of the awaited `refineContent` call.
In the record stage the refined text replaces `formalRecord`; otherwise it
replaces `feedback.fullText` (leaving the other feedback fields alone). -/
def handleRefine (s : AppState) (res : Except JsError (Option String)) :
    AppState × Bool :=
  if jsTrim s.refinementInput = "" then (s, false)
  else
    match res with
    | Except.ok refined =>
      if s.step = Step.record then
        ({ s with isRefining := false, error := none,
                  formalRecord := jsOrStr refined "", refinementInput := "" }, true)
      else
        ({ s with isRefining := false, error := none,
                  feedback := s.feedback.map (fun f => { f with fullText := refined }),
                  refinementInput := "" }, true)
    | Except.error _ =>
      ({ s with isRefining := false,
                error := some "微調內容時發生錯誤，請稍後再試。" }, true)

/-- `handleRefineImage`, given the outcomes of the chained
`refineImagePrompt` and `generateCardImage` calls (the second is only
issued when the first succeeds with a truthy prompt). Returns the final
state and the number of client calls issued. -/
def handleRefineImage (s : AppState)
    (promptRes : Except JsError (Option String))
    (imageRes : Except JsError (Option String)) : AppState × Nat :=
  if jsTrim s.imageRefinementInput = "" ∨ ¬ jsTruthyOptStr s.imagePrompt then (s, 0)
  else
    match promptRes with
    | Except.error _ =>
      ({ s with isRefiningImage := false,
                error := some "微調圖像提示詞時發生錯誤，請稍後再試。" }, 1)
    | Except.ok refinedPrompt =>
      if jsTruthyOptStr refinedPrompt then
        match imageRes with
        | Except.ok newImage =>
          ({ s with isRefiningImage := false, error := none,
                    imagePrompt := refinedPrompt, cardImage := newImage,
                    imageRefinementInput := "" }, 2)
        | Except.error _ =>
          ({ s with isRefiningImage := false,
                    imagePrompt := refinedPrompt, cardImage := none,
                    error := some "微調圖像提示詞時發生錯誤，請稍後再試。" }, 2)
      else
        ({ s with isRefiningImage := false, error := none,
                  imageRefinementInput := "" }, 1)

/-- `handleGoToFeedback`, given the outcome of the awaited
`generateFeedbackSummary` call. On success the handler rebuilds `fullText`
as card text, blank line, healing sentence, and moves to the feedback
stage. -/
def handleGoToFeedback (s : AppState) (res : Except JsError FeedbackData) : AppState :=
  match res with
  | Except.ok summary =>
    let fullText := jsFieldStr summary.feedbackCard ++ "\n\n" ++ jsFieldStr summary.healingSentence
    { s with isGenerating := false, error := none,
             feedback := some { summary with fullText := some fullText },
             step := Step.feedback, isEditing := false }
  | Except.error _ =>
    { s with isGenerating := false, error := some "生成回饋內容時發生錯誤。" }

/-- The `feedback?.theme || 'warmth'` fallback of `handleGoToVisual`,
coerced to the string the prompt template interpolates. -/
def themeOrWarmth : Option FeedbackData → String
  | none => "warmth"
  | some f =>
    match f.theme with
    | none => "warmth"
    | some j =>
      match j with
      | Json.str s => if s = "" then "warmth" else s
      | Json.bool b => if b then jsToDisplayString (Json.bool b) else "warmth"
      | Json.num q => if q = 0 then "warmth" else jsToDisplayString (Json.num q)
      | Json.null => "warmth"
      | j2 => jsToDisplayString j2

/-- The `prompt` built by `handleGoToVisual` before the image call. -/
def goToVisualPrompt (s : AppState) : String :=
  let stylePrompt := lookupStyle s.selectedStyle
  let theme := themeOrWarmth s.feedback
  if s.selectedStyle = "auto" then
    "aspect ratio 9:16. " ++ jsStrOrUndefined stylePrompt ++ " The theme is: " ++ theme ++
      ". Create a visual metaphor for this theme."
  else
    jsStrOrUndefined stylePrompt ++ " Theme: " ++ theme ++ "."

/-- `handleGoToVisual`, given the outcome of the awaited `generateCardImage`
call. The freshly built prompt is stored with `setImagePrompt` before the
image call is awaited, so it persists even when the call fails. -/
def handleGoToVisual (s : AppState) (imageRes : Except JsError (Option String)) : AppState :=
  let prompt := goToVisualPrompt s
  match imageRes with
  | Except.ok image =>
    { s with isGenerating := false, error := none,
             imagePrompt := some prompt, cardImage := image, step := Step.visual }
  | Except.error _ =>
    { s with isGenerating := false, imagePrompt := some prompt,
             error := some "生成視覺卡片時發生錯誤。" }

/-- The back-navigation button of the visual stage: `setStep('feedback')`. -/
def backToFeedback (s : AppState) : AppState :=
  { s with step := Step.feedback }

/-- The reset action: clears all derived state and returns to `initial`. -/
def resetState (s : AppState) : AppState :=
  { s with step := Step.initial, formalRecord := "", feedback := none,
           cardImage := none, imagePrompt := none, input := "", isEditing := false }

/- ===== Lemmas about the retry loop ===== -/

/-- One retried iteration of the loop: a rate-limit failure strictly before
the last attempt adds one call and one backoff delay and continues. -/
theorem withRetryGo_step {α : Type} (fn : Nat → Except JsError α) (jitter : Nat → ℚ)
    (maxRetries fuel i : Nat) (le : Option JsError) (e : JsError)
    (he : fn i = Except.error e) (hrl : isRateLimit e = true)
    (hlt : i < maxRetries - 1) :
    withRetryGo fn jitter maxRetries (fuel + 1) i le =
      ⟨(withRetryGo fn jitter maxRetries fuel (i + 1) (some e)).result,
       (withRetryGo fn jitter maxRetries fuel (i + 1) (some e)).calls + 1,
       ((2 : ℚ) ^ i * 2000 + jitter i) ::
         (withRetryGo fn jitter maxRetries fuel (i + 1) (some e)).delays⟩ := by
  simp [withRetryGo, he, hrl, hlt]

/-- A terminating iteration of the loop: a failure that is not a retriable
rate-limit (or is the last attempt) is rethrown at once. -/
theorem withRetryGo_throw {α : Type} (fn : Nat → Except JsError α) (jitter : Nat → ℚ)
    (maxRetries fuel i : Nat) (le : Option JsError) (e : JsError)
    (he : fn i = Except.error e)
    (hnot : ¬(isRateLimit e = true ∧ i < maxRetries - 1)) :
    withRetryGo fn jitter maxRetries (fuel + 1) i le =
      ⟨Except.error (some e), 1, []⟩ := by
  simp only [withRetryGo, he]
  rw [if_neg hnot]

/-- Running the loop across `n` consecutive rate-limit failures accumulates
`n` calls and the `n` exponential backoff delays, then continues from
attempt `i + n`. -/
theorem withRetryGo_rl_run {α : Type} (fn : Nat → Except JsError α) (jitter : Nat → ℚ)
    (maxRetries : Nat) :
    ∀ (n i fuel : Nat) (le : Option JsError),
      (∀ j, j < n → ∃ e, fn (i + j) = Except.error e ∧ isRateLimit e = true) →
      i + n + 1 ≤ maxRetries →
      n ≤ fuel →
      ∃ le2 : Option JsError,
        withRetryGo fn jitter maxRetries fuel i le =
          ⟨(withRetryGo fn jitter maxRetries (fuel - n) (i + n) le2).result,
           (withRetryGo fn jitter maxRetries (fuel - n) (i + n) le2).calls + n,
           ((List.range n).map (fun j => (2 : ℚ) ^ (i + j) * 2000 + jitter (i + j))) ++
             (withRetryGo fn jitter maxRetries (fuel - n) (i + n) le2).delays⟩ := by
  intro n
  induction n with
  | zero =>
    intro i fuel le _ _ _
    exact ⟨le, by simp⟩
  | succ m ih =>
    intro i fuel le hfail hbound hfuel
    obtain ⟨f, rfl⟩ : ∃ f, fuel = f + 1 := ⟨fuel - 1, by omega⟩
    obtain ⟨e0, he0, hrl0⟩ := hfail 0 (Nat.succ_pos m)
    rw [Nat.add_zero] at he0
    obtain ⟨le2, hrest⟩ := ih (i + 1) f (some e0)
      (fun j hj => by
        obtain ⟨e, he, hr⟩ := hfail (j + 1) (by omega)
        exact ⟨e, by rw [show i + 1 + j = i + (j + 1) by omega]; exact he, hr⟩)
      (by omega) (by omega)
    refine ⟨le2, ?_⟩
    rw [withRetryGo_step fn jitter maxRetries f i le e0 he0 hrl0 (by omega), hrest]
    have hidx : i + 1 + m = i + (m + 1) := by omega
    have hfuel2 : f - m = f + 1 - (m + 1) := by omega
    rw [hidx, hfuel2]
    have hd : ((2 : ℚ) ^ i * 2000 + jitter i) ::
        (List.range m).map (fun j => (2 : ℚ) ^ (i + 1 + j) * 2000 + jitter (i + 1 + j)) =
        (List.range (m + 1)).map (fun j => (2 : ℚ) ^ (i + j) * 2000 + jitter (i + j)) := by
      rw [List.range_succ_eq_map, List.map_cons, List.map_map]
      simp only [Nat.add_zero]
      congr 1
      refine List.map_congr_left (fun a _ => ?_)
      simp only [Function.comp_apply]
      rw [show i + Nat.succ a = i + 1 + a by omega]
    simp only [RetryResult.mk.injEq]
    refine ⟨trivial, by omega, ?_⟩
    rw [← hd, List.cons_append]

/- ===== Claim theorems: the retry wrapper ===== -/

/-- C4: for every operation whose failure is not classified as rate-limit
(not HTTP 429 / resource-exhausted), `withRetry` invokes the operation
exactly once and rethrows that error immediately, performing no retries
and no backoff delay. -/
theorem withRetry_non_rate_limit_single_attempt {α : Type}
    (fn : Nat → Except JsError α) (jitter : Nat → ℚ) (maxRetries : Nat) (e : JsError)
    (hmr : 1 ≤ maxRetries) (h0 : fn 0 = Except.error e) (hrl : isRateLimit e = false) :
    withRetry fn jitter maxRetries = ⟨Except.error (some e), 1, []⟩ := by
  obtain ⟨m, rfl⟩ : ∃ m, maxRetries = m + 1 := ⟨maxRetries - 1, by omega⟩
  rw [withRetry, withRetryGo_throw fn jitter (m + 1) m 0 none e h0]
  rw [hrl]
  simp

/-- A non-retriable error used to exercise the single-attempt theorem. -/
def nonRlErr : JsError := ⟨none, none, some "boom"⟩

/-- Witness for C4 at a concrete operation that always fails with a
non-rate-limit error. -/
theorem withRetry_non_rate_limit_single_attempt_witness :
    withRetry (fun _ => Except.error (α := Unit) nonRlErr) (fun _ => 500) 3 =
      ⟨Except.error (some nonRlErr), 1, []⟩ :=
  withRetry_non_rate_limit_single_attempt _ _ 3 nonRlErr (by decide) rfl (by decide)

/-- C5: a rate-limit failure on attempt `i` (0-indexed, `i ≤ maxAttempts-2`)
is followed by a backoff delay `d` with `2^i * 2000 ≤ d < 2^i * 2000 + 1000`
milliseconds before attempt `i+1` (the `Math.random() * 1000` jitter lies
in `[0, 1000)`). -/
theorem withRetry_rate_limit_delay_bounds {α : Type}
    (fn : Nat → Except JsError α) (jitter : Nat → ℚ) (maxRetries i : Nat)
    (hfail : ∀ j, j ≤ i → ∃ e, fn j = Except.error e ∧ isRateLimit e = true)
    (hle : i + 2 ≤ maxRetries)
    (hj0 : 0 ≤ jitter i) (hj1 : jitter i < 1000) :
    ∃ d, (withRetry fn jitter maxRetries).delays[i]? = some d ∧
         (2 : ℚ) ^ i * 2000 ≤ d ∧ d < (2 : ℚ) ^ i * 2000 + 1000 := by
  obtain ⟨le2, hrun⟩ := withRetryGo_rl_run fn jitter maxRetries (i + 1) 0 maxRetries none
    (fun j hj => by
      obtain ⟨e, he, hr⟩ := hfail j (by omega)
      exact ⟨e, by rw [Nat.zero_add]; exact he, hr⟩)
    (by omega) (by omega)
  refine ⟨(2 : ℚ) ^ i * 2000 + jitter i, ?_, by linarith, by linarith⟩
  rw [withRetry, hrun]
  show (_ ++ _)[i]? = _
  rw [List.getElem?_append]
  simp only [List.length_map, List.length_range]
  rw [if_pos (by omega : i < i + 1)]
  rw [List.getElem?_map, List.getElem?_range (by omega)]
  simp [Nat.zero_add]

/-- A rate-limited error used to exercise the retry claims. -/
def rlErr : JsError := ⟨some 429, none, none⟩

/-- Witness for C5: with three rate-limited attempts and jitter 500, the
delay before attempt 2 is bounded as claimed. -/
theorem withRetry_rate_limit_delay_bounds_witness :
    ∃ d, (withRetry (fun _ => Except.error (α := Unit) rlErr) (fun _ => 500) 3).delays[1]? = some d ∧
         (2 : ℚ) ^ 1 * 2000 ≤ d ∧ d < (2 : ℚ) ^ 1 * 2000 + 1000 :=
  withRetry_rate_limit_delay_bounds _ _ 3 1
    (fun _ _ => ⟨rlErr, rfl, by decide⟩) (by decide) (by norm_num) (by norm_num)

/-- C6: after `maxAttempts` consecutive rate-limit failures, `withRetry`
raises the last observed error and performs no further attempts: exactly
`maxAttempts` invocations in total. -/
theorem withRetry_exhaustion {α : Type}
    (fn : Nat → Except JsError α) (jitter : Nat → ℚ) (maxRetries : Nat)
    (errs : Nat → JsError) (hmr : 1 ≤ maxRetries)
    (hfail : ∀ j, j < maxRetries → fn j = Except.error (errs j) ∧ isRateLimit (errs j) = true) :
    (withRetry fn jitter maxRetries).result = Except.error (some (errs (maxRetries - 1))) ∧
    (withRetry fn jitter maxRetries).calls = maxRetries := by
  obtain ⟨le2, hrun⟩ := withRetryGo_rl_run fn jitter maxRetries (maxRetries - 1) 0 maxRetries none
    (fun j hj => ⟨errs j, by rw [Nat.zero_add]; exact (hfail j (by omega)).1,
                  (hfail j (by omega)).2⟩)
    (by omega) (by omega)
  rw [withRetry, hrun]
  have h1 : maxRetries - (maxRetries - 1) = 1 := by omega
  have h2 : 0 + (maxRetries - 1) = maxRetries - 1 := by omega
  rw [h1, h2]
  have hthrow := withRetryGo_throw fn jitter maxRetries 0 (maxRetries - 1) le2
    (errs (maxRetries - 1)) (hfail (maxRetries - 1) (by omega)).1
    (by intro hc; omega)
  rw [hthrow]
  refine ⟨rfl, ?_⟩
  show 1 + (maxRetries - 1) = maxRetries
  omega

/-- Witness for C6: three consecutive rate-limited failures give exactly
three invocations and rethrow the last error. -/
theorem withRetry_exhaustion_witness :
    (withRetry (fun _ => Except.error (α := Unit) rlErr) (fun _ => 500) 3).result =
        Except.error (some rlErr) ∧
    (withRetry (fun _ => Except.error (α := Unit) rlErr) (fun _ => 500) 3).calls = 3 :=
  withRetry_exhaustion _ _ 3 (fun _ => rlErr) (by decide)
    (fun _ _ => ⟨rfl, show isRateLimit rlErr = true by decide⟩)

/- ===== Claim theorems: generateFeedbackSummary ===== -/

/-- C2 counterexample: a non-empty unparsable payload does NOT yield an
empty-object result; `JSON.parse` raises, so `generateFeedbackSummary`
propagates a parse error instead of returning a `FeedbackData`. -/
theorem generateFeedbackSummary_garbage_raises :
    generateFeedbackSummary (some "oops") = Except.error jsonParseErr := by
  rfl

/-- C2 (amended): the empty-object substitution (`response.text || "{}"`)
only applies to an absent or empty payload; for those, the result has all
four schema fields absent and `fullText = "undefined\n\nundefined"`, and no
error is raised. A non-empty unparsable payload instead raises from
`JSON.parse` (see the counterexample). -/
theorem generateFeedbackSummary_empty_payload_fallback (respText : Option String)
    (h : respText = none ∨ respText = some "") :
    generateFeedbackSummary respText =
      Except.ok { feedbackCard := none, healingSentence := none, theme := none,
                  designConfig := none, fullText := some "undefined\n\nundefined" } := by
  rcases h with rfl | rfl <;> rfl

/-- Witness for the amended C2 at an absent payload. -/
theorem generateFeedbackSummary_empty_payload_fallback_witness :
    generateFeedbackSummary none =
      Except.ok { feedbackCard := none, healingSentence := none, theme := none,
                  designConfig := none, fullText := some "undefined\n\nundefined" } :=
  generateFeedbackSummary_empty_payload_fallback none (Or.inl rfl)

/-- The well-formed schema payload of the spec's test property. -/
def wellFormedPayload : String :=
  "\x7b\"feedbackCard\":\"A\",\"healingSentence\":\"B\",\"theme\":\"calm\",\"designConfig\":\x7b\"textColor\":\"light\",\"textPosition\":\"center\",\"fontStyle\":\"serif\"\x7d\x7d"

/-- C7: on the well-formed payload, `generateFeedbackSummary` carries all
parsed fields through unchanged and computes `fullText = "A\n\nB"`
(card text, blank line, healing sentence). -/
theorem generateFeedbackSummary_wellformed_payload :
    generateFeedbackSummary (some wellFormedPayload) =
      Except.ok
        { feedbackCard := some (Json.str "A")
          healingSentence := some (Json.str "B")
          theme := some (Json.str "calm")
          designConfig := some (Json.obj
            [("textColor", Json.str "light"), ("textPosition", Json.str "center"),
             ("fontStyle", Json.str "serif")])
          fullText := some "A\n\nB" } := by
  rfl

/- ===== Claim theorems: generateCardImage ===== -/

/-- C10: for a style key that is not in the fixed style table and no raw
prompt override, `generateCardImage` silently falls back to the `warm_book`
template when building its prompt; no validation error is raised (the
prompt builder is total). -/
theorem generateCardImage_unknown_style_falls_back (theme styleKey : String)
    (h : lookupStyle styleKey = none) :
    generateCardImagePrompt theme styleKey none =
      styleWarmBook ++ " Theme: " ++ theme ++ noTextSuffix := by
  have hauto : styleKey ≠ "auto" := by
    intro hk
    rw [hk] at h
    exact absurd h (by decide)
  simp [generateCardImagePrompt, jsTruthyOptStr, h, jsOrStr, hauto]

/-- Witness for C10 at the unknown style key `"watercolor"`. -/
theorem generateCardImage_unknown_style_falls_back_witness :
    lookupStyle "watercolor" = none ∧
    generateCardImagePrompt "calm dawn" "watercolor" none =
      styleWarmBook ++ " Theme: " ++ "calm dawn" ++ noTextSuffix :=
  ⟨by decide, generateCardImage_unknown_style_falls_back "calm dawn" "watercolor" (by decide)⟩

/- ===== Claim theorems: pipeline handlers ===== -/

/-- C8: with empty or whitespace-only raw input, `handleGenerateRecord`
returns before doing anything: the generation client is never invoked
(second component `false`) and the state — in particular the stage, which
is `initial` when this transition is triggered — is completely unchanged. -/
theorem handleGenerateRecord_blank_input_noop (s : AppState)
    (res : Except JsError (Option String)) (h : jsTrim s.input = "") :
    handleGenerateRecord s res = (s, false) := by
  simp [handleGenerateRecord, h]

/-- A state whose raw input is whitespace-only. -/
def blankInputState : AppState :=
  { initialState with input := "  \n\t " }

/-- Witness for C8: blank input is a no-op for any call outcome. -/
theorem handleGenerateRecord_blank_input_noop_witness :
    handleGenerateRecord blankInputState (Except.error nonRlErr) = (blankInputState, false) :=
  handleGenerateRecord_blank_input_noop blankInputState (Except.error nonRlErr) (by decide)

/-- C9: from the visual stage, `backToFeedback` sets the stage to
`feedback` and leaves every other component cell unchanged — in particular
`cardImage` and `imagePrompt` stay populated from before. -/
theorem backToFeedback_preserves_state (s : AppState) (h : s.step = Step.visual) :
    (backToFeedback s).step = Step.feedback ∧
    (backToFeedback s).cardImage = s.cardImage ∧
    (backToFeedback s).imagePrompt = s.imagePrompt ∧
    (backToFeedback s).input = s.input ∧
    (backToFeedback s).formalRecord = s.formalRecord ∧
    (backToFeedback s).feedback = s.feedback ∧
    (backToFeedback s).selectedStyle = s.selectedStyle ∧
    (backToFeedback s).error = s.error ∧
    (backToFeedback s).isGenerating = s.isGenerating ∧
    (backToFeedback s).hasKey = s.hasKey ∧
    (backToFeedback s).isEditing = s.isEditing ∧
    (backToFeedback s).refinementInput = s.refinementInput ∧
    (backToFeedback s).isRefining = s.isRefining ∧
    (backToFeedback s).imageRefinementInput = s.imageRefinementInput ∧
    (backToFeedback s).isRefiningImage = s.isRefiningImage := by
  simp [backToFeedback]

/-- A feedback object as produced by a successful generation. -/
def feedbackAB : FeedbackData :=
  { feedbackCard := some (Json.str "A"), healingSentence := some (Json.str "B"),
    theme := some (Json.str "calm"), designConfig := none, fullText := some "A\n\nB" }

/-- A populated visual-stage state. -/
def visualState : AppState :=
  { initialState with
      step := Step.visual, formalRecord := "record",
      feedback := some feedbackAB, cardImage := some "data:image/png;base64,abc",
      imagePrompt := some "old prompt" }

/-- Witness for C9 at a populated visual-stage state. -/
theorem backToFeedback_preserves_state_witness :
    (backToFeedback visualState).step = Step.feedback ∧
    (backToFeedback visualState).cardImage = visualState.cardImage ∧
    (backToFeedback visualState).imagePrompt = visualState.imagePrompt ∧
    (backToFeedback visualState).input = visualState.input ∧
    (backToFeedback visualState).formalRecord = visualState.formalRecord ∧
    (backToFeedback visualState).feedback = visualState.feedback ∧
    (backToFeedback visualState).selectedStyle = visualState.selectedStyle ∧
    (backToFeedback visualState).error = visualState.error ∧
    (backToFeedback visualState).isGenerating = visualState.isGenerating ∧
    (backToFeedback visualState).hasKey = visualState.hasKey ∧
    (backToFeedback visualState).isEditing = visualState.isEditing ∧
    (backToFeedback visualState).refinementInput = visualState.refinementInput ∧
    (backToFeedback visualState).isRefining = visualState.isRefining ∧
    (backToFeedback visualState).imageRefinementInput = visualState.imageRefinementInput ∧
    (backToFeedback visualState).isRefiningImage = visualState.isRefiningImage :=
  backToFeedback_preserves_state visualState rfl

/-- The pipeline data of the spec's PipelineState (stage, raw input, formal
record, feedback, card image, image prompt) agrees between two states. -/
def pipelinePreserved (s2 s : AppState) : Prop :=
  s2.step = s.step ∧ s2.input = s.input ∧ s2.formalRecord = s.formalRecord ∧
  s2.feedback = s.feedback ∧ s2.cardImage = s.cardImage ∧ s2.imagePrompt = s.imagePrompt

/-- A populated feedback-stage state about to run `handleGoToVisual`, with
a leftover image prompt from an earlier visual round. -/
def feedbackStageState : AppState :=
  { initialState with
      step := Step.feedback, formalRecord := "record",
      feedback := some feedbackAB, selectedStyle := "warm_book",
      cardImage := some "img", imagePrompt := some "old prompt",
      imageRefinementInput := "brighter" }

/-- C1 counterexample: a failed `handleGoToVisual` transition stays in the
feedback stage with `cardImage` intact, but `imagePrompt` has already been
replaced by the freshly built prompt — it is NOT left unchanged. -/
theorem handleGoToVisual_failure_updates_imagePrompt :
    feedbackStageState.step = Step.feedback ∧
    feedbackStageState.imagePrompt = some "old prompt" ∧
    (handleGoToVisual feedbackStageState (Except.error nonRlErr)).step = Step.feedback ∧
    (handleGoToVisual feedbackStageState (Except.error nonRlErr)).cardImage =
      feedbackStageState.cardImage ∧
    (handleGoToVisual feedbackStageState (Except.error nonRlErr)).imagePrompt ≠
      some "old prompt" := by
  refine ⟨rfl, rfl, rfl, rfl, ?_⟩
  decide

/-- C1 (amended): a failed stage transition leaves the stage and pipeline
data intact, with two exceptions, both writing the image prompt before the
awaited image call: `handleGoToVisual` stores the freshly built prompt (all
other pipeline data, including `cardImage`, keeps its prior value), and the
refine-image sequence retains the refreshed prompt and the cleared
`cardImage` when its second call fails. -/
theorem failed_transitions_preserve_pipeline (s : AppState) (e : JsError) (p : String)
    (hin : jsTrim s.imageRefinementInput ≠ "")
    (hip : jsTruthyOptStr s.imagePrompt = true)
    (hp : p ≠ "") :
    pipelinePreserved (handleGenerateRecord s (Except.error e)).1 s ∧
    pipelinePreserved (handleGoToFeedback s (Except.error e)) s ∧
    pipelinePreserved (handleRefine s (Except.error e)).1 s ∧
    pipelinePreserved (handleRefineImage s (Except.error e) (Except.error e)).1 s ∧
    ((handleGoToVisual s (Except.error e)).step = s.step ∧
     (handleGoToVisual s (Except.error e)).input = s.input ∧
     (handleGoToVisual s (Except.error e)).formalRecord = s.formalRecord ∧
     (handleGoToVisual s (Except.error e)).feedback = s.feedback ∧
     (handleGoToVisual s (Except.error e)).cardImage = s.cardImage ∧
     (handleGoToVisual s (Except.error e)).imagePrompt = some (goToVisualPrompt s)) ∧
    ((handleRefineImage s (Except.ok (some p)) (Except.error e)).1.step = s.step ∧
     (handleRefineImage s (Except.ok (some p)) (Except.error e)).1.input = s.input ∧
     (handleRefineImage s (Except.ok (some p)) (Except.error e)).1.formalRecord = s.formalRecord ∧
     (handleRefineImage s (Except.ok (some p)) (Except.error e)).1.feedback = s.feedback ∧
     (handleRefineImage s (Except.ok (some p)) (Except.error e)).1.imagePrompt = some p ∧
     (handleRefineImage s (Except.ok (some p)) (Except.error e)).1.cardImage = none) := by
  refine ⟨?_, ?_, ?_, ?_, ?_, ?_⟩
  · unfold handleGenerateRecord pipelinePreserved
    split_ifs <;> simp
    all_goals (split_ifs <;> simp)
  · unfold handleGoToFeedback pipelinePreserved
    simp
  · unfold handleRefine pipelinePreserved
    split_ifs <;> simp
  · unfold handleRefineImage pipelinePreserved
    split_ifs <;> simp
  · unfold handleGoToVisual
    simp
  · unfold handleRefineImage
    rw [if_neg (by simp [hin, hip])]
    simp only []
    rw [if_pos (by simp [jsTruthyOptStr, hp])]
    try simp

/-- Witness for the amended C1 at a populated feedback-stage state. -/
theorem failed_transitions_preserve_pipeline_witness :
    pipelinePreserved (handleGenerateRecord feedbackStageState (Except.error nonRlErr)).1 feedbackStageState ∧
    pipelinePreserved (handleGoToFeedback feedbackStageState (Except.error nonRlErr)) feedbackStageState ∧
    pipelinePreserved (handleRefine feedbackStageState (Except.error nonRlErr)).1 feedbackStageState ∧
    pipelinePreserved (handleRefineImage feedbackStageState (Except.error nonRlErr) (Except.error nonRlErr)).1 feedbackStageState ∧
    ((handleGoToVisual feedbackStageState (Except.error nonRlErr)).step = feedbackStageState.step ∧
     (handleGoToVisual feedbackStageState (Except.error nonRlErr)).input = feedbackStageState.input ∧
     (handleGoToVisual feedbackStageState (Except.error nonRlErr)).formalRecord = feedbackStageState.formalRecord ∧
     (handleGoToVisual feedbackStageState (Except.error nonRlErr)).feedback = feedbackStageState.feedback ∧
     (handleGoToVisual feedbackStageState (Except.error nonRlErr)).cardImage = feedbackStageState.cardImage ∧
     (handleGoToVisual feedbackStageState (Except.error nonRlErr)).imagePrompt = some (goToVisualPrompt feedbackStageState)) ∧
    ((handleRefineImage feedbackStageState (Except.ok (some "new prompt")) (Except.error nonRlErr)).1.step = feedbackStageState.step ∧
     (handleRefineImage feedbackStageState (Except.ok (some "new prompt")) (Except.error nonRlErr)).1.input = feedbackStageState.input ∧
     (handleRefineImage feedbackStageState (Except.ok (some "new prompt")) (Except.error nonRlErr)).1.formalRecord = feedbackStageState.formalRecord ∧
     (handleRefineImage feedbackStageState (Except.ok (some "new prompt")) (Except.error nonRlErr)).1.feedback = feedbackStageState.feedback ∧
     (handleRefineImage feedbackStageState (Except.ok (some "new prompt")) (Except.error nonRlErr)).1.imagePrompt = some "new prompt" ∧
     (handleRefineImage feedbackStageState (Except.ok (some "new prompt")) (Except.error nonRlErr)).1.cardImage = none) :=
  failed_transitions_preserve_pipeline feedbackStageState nonRlErr "new prompt"
    (by decide) (by decide) (by decide)

/- ===== Claim theorems: fullText and refinement ===== -/

/-- The deterministic join of the two feedback text fields (spec §3):
card text, blank line, healing sentence. -/
def fullTextJoin (f : FeedbackData) : String :=
  jsFieldStr f.feedbackCard ++ "\n\n" ++ jsFieldStr f.healingSentence

/-- A feedback-stage state with a pending refinement instruction. -/
def refineFeedbackState : AppState :=
  { initialState with
      step := Step.feedback, feedback := some feedbackAB,
      refinementInput := "shorter" }

/-- C3 counterexample: a feedback refinement that returns the text `"C"`
leaves `feedbackCard = "A"` and `healingSentence = "B"` untouched and sets
`fullText := "C"`, so the resulting object's `fullText` is NOT the join of
its two text fields. -/
theorem handleRefine_feedback_fullText_not_join :
    (handleRefine refineFeedbackState (Except.ok (some "C"))).1.feedback =
      some { feedbackAB with fullText := some "C" } ∧
    ({ feedbackAB with fullText := some "C" } : FeedbackData).fullText ≠
      some (fullTextJoin { feedbackAB with fullText := some "C" }) := by
  constructor
  · rfl
  · intro hc
    simp only [fullTextJoin] at hc
    exact absurd hc (by decide)

/-- C3 (amended): a successful feedback refinement replaces `fullText` with
the refined response text and leaves `feedbackCard` and `healingSentence`
unchanged — `fullText` is not recomputed as their join there; the join is
recomputed only when feedback is (re)generated, where `handleGoToFeedback`
sets `fullText` to card text, blank line, healing sentence. -/
theorem handleRefine_replaces_fullText (s : AppState) (r : Option String)
    (summary : FeedbackData)
    (hstep : s.step ≠ Step.record) (hin : jsTrim s.refinementInput ≠ "") :
    (handleRefine s (Except.ok r)).1.feedback =
      s.feedback.map (fun f => { f with fullText := r }) ∧
    (handleGoToFeedback s (Except.ok summary)).feedback =
      some { summary with fullText := some (fullTextJoin summary) } := by
  constructor
  · simp [handleRefine, hin, hstep]
  · simp [handleGoToFeedback, fullTextJoin]

/-- Witness for the amended C3 at a concrete feedback-stage state. -/
theorem handleRefine_replaces_fullText_witness :
    (handleRefine refineFeedbackState (Except.ok (some "C"))).1.feedback =
      refineFeedbackState.feedback.map (fun f => { f with fullText := some "C" }) ∧
    (handleGoToFeedback refineFeedbackState (Except.ok feedbackAB)).feedback =
      some { feedbackAB with fullText := some (fullTextJoin feedbackAB) } :=
  handleRefine_replaces_fullText refineFeedbackState (some "C") feedbackAB
    (by decide) (by decide)
